import Mathlib

/-
Verification of the availability-ledger and booking-state-machine core of the
case-back-restaurant-go service.  The Go source is shallowly embedded: the
Postgres repositories (AvailabilityRepository, BookingRepository) become pure
functions over an explicit `Store`, the use-case layer (bookingUseCase,
availabilityUseCase) composes them, machine integers become `Int`, timestamps
become `Nat`, SQL dates become their formatted strings, and every fallible
operation returns `Except Err`.  Transactions are modelled by the Except
discipline: an `error` result performs no write.
-/

namespace Restaurant

/-- Booking lifecycle status, from internal/domain booking.go
(BookingStatusPending .. BookingStatusCompleted). -/
inductive BookingStatus where
  | pending
  | confirmed
  | rejected
  | cancelled
  | completed
deriving DecidableEq

/-- One availability row: per (restaurant, date, time-slot) capacity and
reserved-seat counter, from internal/domain availability.go.  `date` is kept
in its formatted "2006-01-02" string form, `updatedAt` is an abstract clock
value. -/
structure Availability where
  id : String
  restaurantID : String
  date : String
  timeSlot : String
  capacity : Int
  reserved : Int
  updatedAt : Nat
deriving DecidableEq

/-- AvailableSeats from internal/domain availability.go: capacity - reserved. -/
def Availability.availableSeats (a : Availability) : Int :=
  a.capacity - a.reserved

/-- One booking row, from internal/domain booking.go.  The nullable SQL
timestamps confirmed_at / rejected_at / completed_at are `Option Nat`. -/
structure Booking where
  id : String
  restaurantID : String
  userID : String
  date : String
  time : String
  duration : Int
  guestsCount : Int
  status : BookingStatus
  comment : String
  createdAt : Nat
  updatedAt : Nat
  confirmedAt : Option Nat
  rejectedAt : Option Nat
  completedAt : Option Nat
deriving DecidableEq

/-- One booking-alternative row, from internal/domain booking.go. -/
structure BookingAlternative where
  id : String
  bookingID : String
  date : String
  time : String
  message : String
  createdAt : Nat
  acceptedAt : Option Nat
  rejectedAt : Option Nat
deriving DecidableEq

/-- The database state visible to the core: the restaurants and users tables
(only existence of ids matters to the core), the availability table, the
bookings table and the booking_alternatives table. -/
structure Store where
  restaurants : List String
  users : List String
  slots : List Availability
  bookings : List Booking
  alternatives : List BookingAlternative
deriving DecidableEq

/-- Error kinds returned by the embedded operations, mirroring the error
taxonomy of the source (common error strings and the use-case sentinel
errors).  `updateSeatsFailed` is the wrapping performed by
bookingUseCase.CreateBooking: "failed to update seats availability: %w". -/
inductive Err where
  | availabilityNotFound
  | insufficientCapacity
  | restaurantNotFound
  | userNotFound
  | bookingNotFound
  | alternativeNotFound
  | noAvailability
  | invalidBookingStatus
  | updateSeatsFailed (inner : Err)
deriving DecidableEq

/-- Insert an availability row into a list sorted by ascending time_slot,
keeping it sorted (stable: equal keys keep table order). -/
def insertByTimeSlot (a : Availability) : List Availability → List Availability
  | [] => [a]
  | b :: bs => if a.timeSlot < b.timeSlot then a :: b :: bs else b :: insertByTimeSlot a bs

/-- Sort availability rows by ascending time_slot (the ORDER BY time_slot of
the repository query), as a structurally recursive insertion sort. -/
def sortByTimeSlot : List Availability → List Availability
  | [] => []
  | a :: as => insertByTimeSlot a (sortByTimeSlot as)

/-- AvailabilityRepository.GetByRestaurantAndDate: SELECT the availability rows
with the given restaurant_id and (formatted) date, ORDER BY time_slot. -/
def getByRestaurantAndDate (slots : List Availability) (restaurantID date : String) :
    List Availability :=
  sortByTimeSlot (slots.filter (fun a => a.restaurantID == restaurantID && a.date == date))

/-- AvailabilityRepository.UpdateReservedSeats: in one transaction, SELECT
capacity and reserved FOR UPDATE (NotFound when the id is absent), fail with
InsufficientCapacity when reserved + delta > capacity, clamp a negative
new value to 0, and write back reserved and updated_at. -/
def updateReservedSeats (slots : List Availability) (availabilityID : String)
    (delta : Int) (now : Nat) : Except Err (List Availability) :=
  match slots.find? (fun a => a.id == availabilityID) with
  | none => .error .availabilityNotFound
  | some a =>
    let newReserved := a.reserved + delta
    if newReserved > a.capacity then
      .error .insufficientCapacity
    else
      let newReserved := if newReserved < 0 then 0 else newReserved
      .ok (slots.map (fun s =>
        if s.id == availabilityID then
          { s with reserved := newReserved, updatedAt := now }
        else s))

/-- The id resolution at the top of SetAvailability: when the passed struct
carries an empty id, a fresh uuid (here `freshID`) is assigned. -/
def availWithID (a : Availability) (freshID : String) : Availability :=
  if a.id = "" then { a with id := freshID } else a

/-- AvailabilityRepository.SetAvailability: check the restaurant exists
(NotFound otherwise); if a row for (restaurant_id, date, time_slot) exists,
UPDATE its capacity and updated_at (reserved untouched), else INSERT a new row
with reserved = 0.  Returns the new table together with the struct value the
Go code hands back to its caller. -/
def setAvailability (restaurants : List String) (slots : List Availability)
    (availability : Availability) (freshID : String) (now : Nat) :
    Except Err (List Availability × Availability) :=
  let avail := availWithID availability freshID
  if restaurants.contains avail.restaurantID then
    match slots.find? (fun s =>
        s.restaurantID == avail.restaurantID && s.date == avail.date &&
        s.timeSlot == avail.timeSlot) with
    | some existing =>
        .ok (slots.map (fun s =>
              if s.id == existing.id then
                { s with capacity := avail.capacity, updatedAt := now }
              else s),
            { avail with id := existing.id, reserved := existing.reserved, updatedAt := now })
    | none =>
        let inserted := { avail with reserved := 0, updatedAt := now }
        .ok (slots ++ [inserted], inserted)
  else
    .error .restaurantNotFound

/-- The invariant claimed for every availability row: 0 <= reserved <= capacity. -/
def slotInv (a : Availability) : Prop :=
  0 ≤ a.reserved ∧ a.reserved ≤ a.capacity

instance (a : Availability) : Decidable (slotInv a) := by
  unfold slotInv; infer_instance

/-- BookingRepository.GetByID: SELECT the booking row (NotFound when absent).
The alternatives it additionally loads play no role in the embedded
operations, so only the row is returned. -/
def bookingGetByID (bookings : List Booking) (id : String) : Except Err Booking :=
  match bookings.find? (fun b => b.id == id) with
  | none => .error .bookingNotFound
  | some b => .ok b

/-- The id resolution at the top of BookingRepository.Create: when the passed
struct carries an empty id, a fresh uuid (here `freshID`) is assigned. -/
def bookingWithID (b : Booking) (freshID : String) : Booking :=
  if b.id = "" then { b with id := freshID } else b

/-- The store after the INSERT INTO bookings of BookingRepository.Create. -/
def storeAfterInsert (store : Store) (b : Booking) : Store :=
  { store with bookings := store.bookings ++ [b] }

/-- BookingRepository.Create: generate an id when empty, check the restaurant
and the user exist (NotFound otherwise), and INSERT the row.  Returns the new
table together with the inserted row. -/
def bookingCreate (store : Store) (booking : Booking) (freshID : String) :
    Except Err (Store × Booking) :=
  let b := bookingWithID booking freshID
  if store.restaurants.contains b.restaurantID then
    if store.users.contains b.userID then
      .ok (storeAfterInsert store b, b)
    else
      .error .userNotFound
  else
    .error .restaurantNotFound

/-- BookingRepository.UpdateStatus: in one transaction, SELECT status FOR
UPDATE (NotFound when the id is absent), then UPDATE status and updated_at,
additionally setting confirmed_at / rejected_at / completed_at for the
corresponding target status (pending and cancelled set no extra timestamp). -/
def updateStatus (bookings : List Booking) (id : String) (status : BookingStatus)
    (now : Nat) : Except Err (List Booking) :=
  match bookings.find? (fun b => b.id == id) with
  | none => .error .bookingNotFound
  | some _ =>
    .ok (bookings.map (fun b =>
      if b.id == id then
        let b' := { b with status := status, updatedAt := now }
        match status with
        | .confirmed => { b' with confirmedAt := some now }
        | .rejected => { b' with rejectedAt := some now }
        | .completed => { b' with completedAt := some now }
        | _ => b'
      else b))

/-- BookingRepository.AddAlternative: generate an id when empty, check the
parent booking exists (NotFound otherwise), and INSERT the row. -/
def addAlternative (store : Store) (alternative : BookingAlternative) (freshID : String) :
    Except Err (Store × BookingAlternative) :=
  let alt := if alternative.id = "" then { alternative with id := freshID } else alternative
  if store.bookings.any (fun b => b.id == alt.bookingID) then
    .ok ({ store with alternatives := store.alternatives ++ [alt] }, alt)
  else
    .error .bookingNotFound

/-- BookingRepository.GetAlternativeByID: SELECT the alternative row by id
with no filter on accepted_at / rejected_at (AlternativeNotFound when absent). -/
def getAlternativeByID (alternatives : List BookingAlternative) (id : String) :
    Except Err BookingAlternative :=
  match alternatives.find? (fun a => a.id == id) with
  | none => .error .alternativeNotFound
  | some a => .ok a

/-- BookingRepository.AcceptAlternative: in one transaction, SELECT the
alternative by id with accepted_at and rejected_at both NULL, FOR UPDATE
(AlternativeNotFound when no such row); then UPDATE the alternative's
accepted_at and UPDATE the parent booking's date, time, updated_at,
status = confirmed and confirmed_at. -/
def repoAcceptAlternative (store : Store) (alternativeID : String) (now : Nat) :
    Except Err Store :=
  match store.alternatives.find? (fun a =>
      a.id == alternativeID && a.acceptedAt == none && a.rejectedAt == none) with
  | none => .error .alternativeNotFound
  | some alt =>
    .ok { store with
      alternatives := store.alternatives.map (fun a =>
        if a.id == alternativeID then { a with acceptedAt := some now } else a),
      bookings := store.bookings.map (fun b =>
        if b.id == alt.bookingID then
          { b with date := alt.date, time := alt.time, updatedAt := now,
                   status := .confirmed, confirmedAt := some now }
        else b) }

/-- BookingRepository.RejectAlternative: UPDATE rejected_at WHERE id matches
and both decision timestamps are NULL; zero affected rows is
AlternativeNotFound. -/
def repoRejectAlternative (store : Store) (alternativeID : String) (now : Nat) :
    Except Err Store :=
  if store.alternatives.any (fun a =>
      a.id == alternativeID && a.rejectedAt == none && a.acceptedAt == none) then
    .ok { store with
      alternatives := store.alternatives.map (fun a =>
        if a.id == alternativeID && a.rejectedAt == none && a.acceptedAt == none then
          { a with rejectedAt := some now }
        else a) }
  else
    .error .alternativeNotFound

/-- Notification types, from internal/domain notification.go. -/
inductive NotificationType where
  | newBooking
  | bookingConfirmed
  | bookingRejected
  | bookingCancelled
  | alternativeOffer
  | alternativeAccepted
  | alternativeRejected
deriving DecidableEq

/-- A dispatched notification as recorded by the model: whether it went to the
restaurant (NotifyRestaurant) or the user (NotifyUser), its recipient, type,
related entity id, and whether delivery succeeded.  The use-case layer logs a
failed delivery and carries on, so the outcome is recorded here and nowhere
else. -/
structure Notification where
  toRestaurant : Bool
  recipient : String
  ntype : NotificationType
  relatedID : String
  delivered : Bool
deriving DecidableEq

instance {ε α : Type} [DecidableEq ε] [DecidableEq α] : DecidableEq (Except ε α) :=
  fun x y =>
    match x, y with
    | .error a, .error b =>
      if h : a = b then isTrue (by rw [h]) else isFalse (fun hc => h (by injection hc))
    | .ok a, .ok b =>
      if h : a = b then isTrue (by rw [h]) else isFalse (fun hc => h (by injection hc))
    | .error _, .ok _ => isFalse (fun hc => Except.noConfusion hc)
    | .ok _, .error _ => isFalse (fun hc => Except.noConfusion hc)

/-- Result of a use-case operation returning only an error or success:
the outcome, the store afterwards, and the notifications dispatched. -/
structure OpResult where
  res : Except Err Unit
  store : Store
  notifs : List Notification
deriving DecidableEq

/-- Result of a use-case operation returning a fresh id on success. -/
structure IdResult where
  res : Except Err String
  store : Store
  notifs : List Notification
deriving DecidableEq

/-- The booking value persisted by CreateBooking: status pending and
created_at = updated_at = now. -/
def preparedBooking (booking : Booking) (now : Nat) : Booking :=
  { booking with status := BookingStatus.pending, createdAt := now, updatedAt := now }

/-- The tail of bookingUseCase.CreateBooking after the booking row has been
persisted: call UpdateReservedSeats with +guestsCount; on failure, compensate
by UpdateStatus to cancelled (its own failure is only logged) and return the
wrapped capacity error; on success, notify the restaurant (outcome never
propagated) and return the booking id. -/
def createBookingReserve (store : Store) (booking : Booking) (availabilityID : String)
    (now : Nat) (notifyOk : Bool) : IdResult :=
  match updateReservedSeats store.slots availabilityID booking.guestsCount now with
  | .error e =>
    let store' :=
      match updateStatus store.bookings booking.id .cancelled now with
      | .ok bs => { store with bookings := bs }
      | .error _ => store
    ⟨.error (.updateSeatsFailed e), store', []⟩
  | .ok slots' =>
    ⟨.ok booking.id, { store with slots := slots' },
     [⟨true, booking.restaurantID, .newBooking, booking.id, notifyOk⟩]⟩

/-- bookingUseCase.CreateBooking: read the date's slots, locate the one whose
time_slot equals the requested time (an empty id meaning none was found),
fail with NoAvailability when it is missing or its free seats are fewer than
guests_count; otherwise persist the booking with status pending and
created_at = updated_at = now, and reserve the seats
(`createBookingReserve`).  `interf` is the interference of concurrent
operations on the store between the booking insert and the seat reservation
(the two are not one atomic unit in the source); a sequential run passes
`id`. -/
def createBooking (store : Store) (booking : Booking) (freshID : String) (now : Nat)
    (interf : Store → Store) (notifyOk : Bool) : IdResult :=
  let availabilities := getByRestaurantAndDate store.slots booking.restaurantID booking.date
  let found := availabilities.find? (fun a => a.timeSlot == booking.time)
  let availabilityID := match found with | some a => a.id | none => ""
  let availableSeats := match found with | some a => a.availableSeats | none => 0
  if availabilityID = "" ∨ availableSeats < booking.guestsCount then
    ⟨.error .noAvailability, store, []⟩
  else
    let prepared := preparedBooking booking now
    match bookingCreate store prepared freshID with
    | .error e => ⟨.error e, store, []⟩
    | .ok (store₁, inserted) =>
      createBookingReserve (interf store₁) inserted availabilityID now notifyOk

/-- bookingUseCase.ConfirmBooking: fetch the booking, require status pending
(InvalidBookingStatus otherwise), UpdateStatus to confirmed, then notify the
user (outcome `notifyOk`, never propagated). -/
def confirmBooking (store : Store) (id : String) (now : Nat) (notifyOk : Bool) : OpResult :=
  match bookingGetByID store.bookings id with
  | .error e => ⟨.error e, store, []⟩
  | .ok booking =>
    if booking.status ≠ BookingStatus.pending then
      ⟨.error .invalidBookingStatus, store, []⟩
    else
      match updateStatus store.bookings id .confirmed now with
      | .error e => ⟨.error e, store, []⟩
      | .ok bs =>
        ⟨.ok (), { store with bookings := bs },
         [⟨false, booking.userID, .bookingConfirmed, booking.id, notifyOk⟩]⟩

/-- bookingUseCase.RejectBooking: fetch the booking, require status pending
(InvalidBookingStatus otherwise), UpdateStatus to rejected, then notify the
user with the reason (outcome never propagated). -/
def rejectBooking (store : Store) (id : String) (now : Nat) (notifyOk : Bool) : OpResult :=
  match bookingGetByID store.bookings id with
  | .error e => ⟨.error e, store, []⟩
  | .ok booking =>
    if booking.status ≠ BookingStatus.pending then
      ⟨.error .invalidBookingStatus, store, []⟩
    else
      match updateStatus store.bookings id .rejected now with
      | .error e => ⟨.error e, store, []⟩
      | .ok bs =>
        ⟨.ok (), { store with bookings := bs },
         [⟨false, booking.userID, .bookingRejected, booking.id, notifyOk⟩]⟩

/-- bookingUseCase.CancelBooking: fetch the booking, fail with
InvalidBookingStatus only when status is completed or rejected, UpdateStatus
to cancelled, then notify the restaurant (outcome never propagated).  No seat
release is performed. -/
def cancelBooking (store : Store) (id : String) (now : Nat) (notifyOk : Bool) : OpResult :=
  match bookingGetByID store.bookings id with
  | .error e => ⟨.error e, store, []⟩
  | .ok booking =>
    if booking.status = BookingStatus.completed ∨ booking.status = BookingStatus.rejected then
      ⟨.error .invalidBookingStatus, store, []⟩
    else
      match updateStatus store.bookings id .cancelled now with
      | .error e => ⟨.error e, store, []⟩
      | .ok bs =>
        ⟨.ok (), { store with bookings := bs },
         [⟨true, booking.restaurantID, .bookingCancelled, booking.id, notifyOk⟩]⟩

/-- bookingUseCase.CompleteBooking: fetch the booking, require status
confirmed (InvalidBookingStatus otherwise), UpdateStatus to completed.
No notification is sent. -/
def completeBooking (store : Store) (id : String) (now : Nat) : OpResult :=
  match bookingGetByID store.bookings id with
  | .error e => ⟨.error e, store, []⟩
  | .ok booking =>
    if booking.status ≠ BookingStatus.confirmed then
      ⟨.error .invalidBookingStatus, store, []⟩
    else
      match updateStatus store.bookings id .completed now with
      | .error e => ⟨.error e, store, []⟩
      | .ok bs => ⟨.ok (), { store with bookings := bs }, []⟩

/-- bookingUseCase.SuggestAlternativeTime: fetch the booking, require status
pending (InvalidBookingStatus otherwise), AddAlternative with created_at = now
and no decision timestamps, then notify the user (outcome never propagated). -/
def suggestAlternativeTime (store : Store) (bookingID : String) (date timeSlot message : String)
    (freshID : String) (now : Nat) (notifyOk : Bool) : IdResult :=
  match bookingGetByID store.bookings bookingID with
  | .error e => ⟨.error e, store, []⟩
  | .ok booking =>
    if booking.status ≠ BookingStatus.pending then
      ⟨.error .invalidBookingStatus, store, []⟩
    else
      match addAlternative store ⟨"", bookingID, date, timeSlot, message, now, none, none⟩ freshID with
      | .error e => ⟨.error e, store, []⟩
      | .ok (store', alt) =>
        ⟨.ok alt.id, store',
         [⟨false, booking.userID, .alternativeOffer, bookingID, notifyOk⟩]⟩

/-- bookingUseCase.AcceptAlternative: fetch the alternative (unfiltered
lookup), fetch its parent booking, run the repository's transactional
AcceptAlternative (which re-selects the alternative under the undecided
filter), then notify the restaurant (outcome never propagated). -/
def acceptAlternative (store : Store) (alternativeID : String) (now : Nat) (notifyOk : Bool) :
    OpResult :=
  match getAlternativeByID store.alternatives alternativeID with
  | .error e => ⟨.error e, store, []⟩
  | .ok alternative =>
    match bookingGetByID store.bookings alternative.bookingID with
    | .error e => ⟨.error e, store, []⟩
    | .ok booking =>
      match repoAcceptAlternative store alternativeID now with
      | .error e => ⟨.error e, store, []⟩
      | .ok store' =>
        ⟨.ok (), store',
         [⟨true, booking.restaurantID, .alternativeAccepted, booking.id, notifyOk⟩]⟩

/-- bookingUseCase.RejectAlternative: fetch the alternative (unfiltered
lookup), fetch its parent booking, run the repository's RejectAlternative
(filtered UPDATE), then notify the restaurant (outcome never propagated). -/
def rejectAlternative (store : Store) (alternativeID : String) (now : Nat) (notifyOk : Bool) :
    OpResult :=
  match getAlternativeByID store.alternatives alternativeID with
  | .error e => ⟨.error e, store, []⟩
  | .ok alternative =>
    match bookingGetByID store.bookings alternative.bookingID with
    | .error e => ⟨.error e, store, []⟩
    | .ok booking =>
      match repoRejectAlternative store alternativeID now with
      | .error e => ⟨.error e, store, []⟩
      | .ok store' =>
        ⟨.ok (), store',
         [⟨true, booking.restaurantID, .alternativeRejected, booking.id, notifyOk⟩]⟩

/-- A booking already in the terminal status cancelled, with its store:
fixture for the C2 refutation and related witnesses. -/
def cancelledBookingFixture : Booking :=
  ⟨"b1", "r1", "u1", "2025-04-15", "19:00", 120, 4, .cancelled, "", 0, 0, none, none, none⟩

def cancelledStoreFixture : Store :=
  ⟨["r1"], ["u1"], [], [cancelledBookingFixture], []⟩

/-- A booking in the terminal status completed, with its store: fixture for
the C2 witness. -/
def completedBookingFixture : Booking :=
  ⟨"b1", "r1", "u1", "2025-04-15", "19:00", 120, 4, .completed, "", 0, 0, none, none, some 0⟩

def completedStoreFixture : Store :=
  ⟨["r1"], ["u1"], [], [completedBookingFixture], []⟩

/-- Fixtures for the C5 witness: a store with one slot (capacity 10,
reserved 5), a booking request for 4 guests, and an interference that lets a
concurrent booking consume all remaining seats between the insert and the
reservation. -/
def c5StoreFixture : Store :=
  ⟨["r1"], ["u1"], [⟨"s1", "r1", "2025-04-15", "19:00", 10, 5, 0⟩], [], []⟩

def c5BookingFixture : Booking :=
  ⟨"", "r1", "u1", "2025-04-15", "19:00", 120, 4, .pending, "", 0, 0, none, none, none⟩

def seatEaterInterference : Store → Store := fun st =>
  { st with slots := [⟨"s1", "r1", "2025-04-15", "19:00", 10, 10, 6⟩] }

/-! Helper lemmas shared by the claim proofs. -/

@[simp] theorem availWithID_restaurantID (a : Availability) (f : String) :
    (availWithID a f).restaurantID = a.restaurantID := by
  unfold availWithID; split <;> rfl

@[simp] theorem availWithID_date (a : Availability) (f : String) :
    (availWithID a f).date = a.date := by
  unfold availWithID; split <;> rfl

@[simp] theorem availWithID_timeSlot (a : Availability) (f : String) :
    (availWithID a f).timeSlot = a.timeSlot := by
  unfold availWithID; split <;> rfl

@[simp] theorem availWithID_capacity (a : Availability) (f : String) :
    (availWithID a f).capacity = a.capacity := by
  unfold availWithID; split <;> rfl

@[simp] theorem availWithID_reserved (a : Availability) (f : String) :
    (availWithID a f).reserved = a.reserved := by
  unfold availWithID; split <;> rfl

@[simp] theorem bookingWithID_restaurantID (b : Booking) (f : String) :
    (bookingWithID b f).restaurantID = b.restaurantID := by
  unfold bookingWithID; split <;> rfl

@[simp] theorem bookingWithID_userID (b : Booking) (f : String) :
    (bookingWithID b f).userID = b.userID := by
  unfold bookingWithID; split <;> rfl

@[simp] theorem bookingWithID_guestsCount (b : Booking) (f : String) :
    (bookingWithID b f).guestsCount = b.guestsCount := by
  unfold bookingWithID; split <;> rfl

@[simp] theorem preparedBooking_restaurantID (b : Booking) (now : Nat) :
    (preparedBooking b now).restaurantID = b.restaurantID := rfl

@[simp] theorem preparedBooking_userID (b : Booking) (now : Nat) :
    (preparedBooking b now).userID = b.userID := rfl

@[simp] theorem preparedBooking_guestsCount (b : Booking) (now : Nat) :
    (preparedBooking b now).guestsCount = b.guestsCount := rfl


theorem mem_insertByTimeSlot (a x : Availability) (l : List Availability) :
    x ∈ insertByTimeSlot a l ↔ x = a ∨ x ∈ l := by
  induction l with
  | nil => simp [insertByTimeSlot]
  | cons b bs ih =>
    by_cases h : a.timeSlot < b.timeSlot
    · simp [insertByTimeSlot, h]
    · simp [insertByTimeSlot, h, ih]
      tauto

theorem mem_sortByTimeSlot (x : Availability) (l : List Availability) :
    x ∈ sortByTimeSlot l ↔ x ∈ l := by
  induction l with
  | nil => simp [sortByTimeSlot]
  | cons a as ih => simp [sortByTimeSlot, mem_insertByTimeSlot, ih]

theorem clamp_eq_max (x : Int) : (if x < 0 then (0 : Int) else x) = max x 0 := by
  omega

theorem eq_of_pairwise_key {α β : Type} (key : α → β) {l : List α}
    (hu : l.Pairwise (fun x y => key x ≠ key y)) {a b : α}
    (ha : a ∈ l) (hb : b ∈ l) (hk : key a = key b) : a = b := by
  by_contra hne
  exact List.Pairwise.forall (fun x y hxy => hxy ∘ Eq.symm) hu ha hb hne hk

/-! Claim theorems. -/

/-- C3: UpdateReservedSeats(slot_id, delta) fails with NotFound when no slot
with the id exists; with the slot's current (capacity, reserved) it fails
with InsufficientCapacity when reserved + delta > capacity (the transaction
writes nothing, so the slot is unchanged); otherwise it succeeds and the
slot's reserved becomes max(reserved + delta, 0) with updated_at refreshed —
an over-release never raises. -/
theorem C3_updateReservedSeats_spec (slots : List Availability) (availabilityID : String)
    (delta : Int) (now : Nat) :
    (slots.find? (fun a => a.id == availabilityID) = none →
      updateReservedSeats slots availabilityID delta now = .error .availabilityNotFound) ∧
    (∀ a, slots.find? (fun a => a.id == availabilityID) = some a →
      (a.capacity < a.reserved + delta →
        updateReservedSeats slots availabilityID delta now = .error .insufficientCapacity) ∧
      (a.reserved + delta ≤ a.capacity →
        updateReservedSeats slots availabilityID delta now =
          .ok (slots.map (fun s =>
            if s.id == availabilityID then
              { s with reserved := max (a.reserved + delta) 0, updatedAt := now }
            else s)))) := by
  refine ⟨fun h => by simp [updateReservedSeats, h], fun a ha => ⟨fun hlt => ?_, fun hle => ?_⟩⟩
  · simp [updateReservedSeats, ha, hlt]
  · simp only [updateReservedSeats, ha, gt_iff_lt, not_lt.mpr hle, if_false, clamp_eq_max]

/-- Witness for C3: a slot with capacity 10, reserved 5; a release of 7 seats
clamps reserved to 0 and refreshes updated_at. -/
theorem C3_witness :
    updateReservedSeats [⟨"s1", "r1", "2025-04-15", "19:00", 10, 5, 0⟩] "s1" (-7) 2 =
      .ok [⟨"s1", "r1", "2025-04-15", "19:00", 10, 0, 2⟩] := by
  have h := ((C3_updateReservedSeats_spec
      [⟨"s1", "r1", "2025-04-15", "19:00", 10, 5, 0⟩] "s1" (-7) 2).2
      ⟨"s1", "r1", "2025-04-15", "19:00", 10, 5, 0⟩ (by decide)).2 (by decide)
  exact h.trans (by decide)

/-- C1 fails on the code: SetAvailability's update path overwrites capacity
without comparing it to the preserved reserved count.  Publishing capacity 3
over a slot satisfying the invariant with reserved 5 succeeds and leaves
reserved = 5 > capacity = 3. -/
theorem C1_counterexample :
    slotInv ⟨"s1", "r1", "2025-04-15", "19:00", 10, 5, 0⟩ ∧
    setAvailability ["r1"] [⟨"s1", "r1", "2025-04-15", "19:00", 10, 5, 0⟩]
        ⟨"", "r1", "2025-04-15", "19:00", 3, 0, 0⟩ "f1" 1 =
      .ok ([⟨"s1", "r1", "2025-04-15", "19:00", 3, 5, 1⟩],
           ⟨"s1", "r1", "2025-04-15", "19:00", 3, 5, 1⟩) ∧
    ¬ slotInv ⟨"s1", "r1", "2025-04-15", "19:00", 3, 5, 1⟩ := by
  refine ⟨by decide, by decide, by decide⟩

/-- C1 amended: over a table with unique slot ids in which every slot
satisfies 0 <= reserved <= capacity, UpdateReservedSeats preserves the
invariant for any delta, and SetAvailability preserves it provided the
published capacity is nonnegative and at least the reserved count of any slot
it updates; the update path with a published capacity below the existing
reserved count instead leaves reserved > capacity (see the counterexample). -/
theorem C1_amended_invariant (slots : List Availability)
    (huniq : slots.Pairwise (fun x y => x.id ≠ y.id))
    (hinv : ∀ s ∈ slots, slotInv s) :
    (∀ availabilityID delta now out,
      updateReservedSeats slots availabilityID delta now = .ok out →
      ∀ s ∈ out, slotInv s) ∧
    (∀ restaurants avail freshID now out ret,
      0 ≤ avail.capacity →
      (∀ e ∈ slots, e.restaurantID = avail.restaurantID → e.date = avail.date →
        e.timeSlot = avail.timeSlot → e.reserved ≤ avail.capacity) →
      setAvailability restaurants slots avail freshID now = .ok (out, ret) →
      ∀ s ∈ out, slotInv s) := by
  constructor
  · intro availabilityID delta now out hok
    unfold updateReservedSeats at hok
    cases hfind : slots.find? (fun a => a.id == availabilityID) with
    | none => rw [hfind] at hok; cases hok
    | some a =>
      rw [hfind] at hok
      dsimp only at hok
      by_cases hcap : a.reserved + delta > a.capacity
      · simp [hcap] at hok
      · rw [if_neg hcap] at hok
        simp only [Except.ok.injEq] at hok
        subst hok
        intro s' hs'
        rcases List.mem_map.1 hs' with ⟨s, hsmem, rfl⟩
        by_cases hid : (s.id == availabilityID) = true
        · have ha_mem := List.mem_of_find?_eq_some hfind
          have ha_id := List.find?_some hfind
          simp only [beq_iff_eq] at ha_id
          have hsa : s = a := eq_of_pairwise_key Availability.id huniq hsmem ha_mem
            (by rw [eq_of_beq hid, ha_id])
          subst hsa
          have h1 := hinv s hsmem
          simp only [slotInv] at h1 ⊢
          simp only [hid, if_true]
          omega
        · simp only [hid, Bool.false_eq_true, if_false]
          exact hinv s hsmem
  · intro restaurants avail freshID now out ret hcap hres hok
    unfold setAvailability at hok
    simp only [availWithID_restaurantID, availWithID_date, availWithID_timeSlot] at hok
    cases hcon : restaurants.contains avail.restaurantID with
    | false => rw [hcon] at hok; simp at hok
    | true =>
      rw [hcon] at hok
      simp only [if_true] at hok
      cases hfind : slots.find? (fun s => s.restaurantID == avail.restaurantID &&
          s.date == avail.date && s.timeSlot == avail.timeSlot) with
      | none =>
        rw [hfind] at hok
        simp only [Except.ok.injEq, Prod.mk.injEq] at hok
        rcases hok with ⟨hout, -⟩
        subst hout
        intro s' hs'
        rcases List.mem_append.1 hs' with h | h
        · exact hinv s' h
        · simp only [List.mem_singleton] at h
          subst h
          simp only [slotInv]
          refine ⟨by simp, by simpa using hcap⟩
      | some existing =>
        rw [hfind] at hok
        simp only [Except.ok.injEq, Prod.mk.injEq] at hok
        rcases hok with ⟨hout, -⟩
        subst hout
        intro s' hs'
        rcases List.mem_map.1 hs' with ⟨s, hsmem, rfl⟩
        by_cases hsid : (s.id == existing.id) = true
        · have he_mem := List.mem_of_find?_eq_some hfind
          have he_pred := List.find?_some hfind
          simp only [Bool.and_eq_true, beq_iff_eq] at he_pred
          have hse : s = existing := eq_of_pairwise_key Availability.id huniq hsmem he_mem
            (eq_of_beq hsid)
          have h1 := hinv s hsmem
          have h2 := hres s hsmem (hse ▸ he_pred.1.1) (hse ▸ he_pred.1.2) (hse ▸ he_pred.2)
          simp only [slotInv] at h1 ⊢
          simp only [hsid, if_true]
          exact ⟨by simpa using h1.1, by simpa using h2⟩
        · simp only [hsid, Bool.false_eq_true, if_false]
          exact hinv s hsmem

/-- Witness for the amended C1: reserving 2 seats on a slot with capacity 10
and reserved 5 keeps every slot inside the invariant. -/
theorem C1_witness :
    slotInv ⟨"s1", "r1", "2025-04-15", "19:00", 10, 7, 3⟩ :=
  (C1_amended_invariant [⟨"s1", "r1", "2025-04-15", "19:00", 10, 5, 0⟩]
      (by decide) (by decide)).1 "s1" 2 3
    [⟨"s1", "r1", "2025-04-15", "19:00", 10, 7, 3⟩] (by decide)
    ⟨"s1", "r1", "2025-04-15", "19:00", 10, 7, 3⟩ (by decide)

/-- C2 fails on the code for one action: CancelBooking refuses only the
statuses completed and rejected, so cancelling a booking already in the
terminal status cancelled succeeds instead of failing with
InvalidBookingStatus. -/
theorem C2_counterexample :
    cancelledBookingFixture.status = BookingStatus.cancelled ∧
    (cancelBooking cancelledStoreFixture "b1" 5 true).res = .ok () := by
  refine ⟨by decide, by decide⟩

/-- C2 amended: with the booking fetched for the id, each transition
operation invoked from a status its table row does not permit fails with
InvalidBookingStatus and leaves the store (hence the booking's status)
unchanged — where Cancel's permitted set is pending, confirmed and also
cancelled (the code refuses only completed and rejected, so a re-cancel
succeeds); Confirm, Reject and ProposeAlternative require pending, and
Complete requires confirmed, exactly as claimed. -/
theorem C2_amended_transitions (store : Store) (id : String) (now : Nat) (notifyOk : Bool)
    (booking : Booking) (hfind : store.bookings.find? (fun b => b.id == id) = some booking) :
    (booking.status ≠ BookingStatus.pending →
      confirmBooking store id now notifyOk = ⟨.error .invalidBookingStatus, store, []⟩) ∧
    (booking.status ≠ BookingStatus.pending →
      rejectBooking store id now notifyOk = ⟨.error .invalidBookingStatus, store, []⟩) ∧
    (booking.status ≠ BookingStatus.pending → ∀ date timeSlot message freshID,
      suggestAlternativeTime store id date timeSlot message freshID now notifyOk =
        ⟨.error .invalidBookingStatus, store, []⟩) ∧
    (booking.status ≠ BookingStatus.confirmed →
      completeBooking store id now = ⟨.error .invalidBookingStatus, store, []⟩) ∧
    (booking.status = BookingStatus.completed ∨ booking.status = BookingStatus.rejected →
      cancelBooking store id now notifyOk = ⟨.error .invalidBookingStatus, store, []⟩) := by
  refine ⟨fun h => ?_, fun h => ?_, fun h date timeSlot message freshID => ?_,
    fun h => ?_, fun h => ?_⟩
  · simp only [confirmBooking, bookingGetByID, hfind]
    rw [if_pos h]
  · simp only [rejectBooking, bookingGetByID, hfind]
    rw [if_pos h]
  · simp only [suggestAlternativeTime, bookingGetByID, hfind]
    rw [if_pos h]
  · simp only [completeBooking, bookingGetByID, hfind]
    rw [if_pos h]
  · simp only [cancelBooking, bookingGetByID, hfind]
    rw [if_pos h]

/-- Witness for the amended C2: against a completed booking, all five
operations fail with InvalidBookingStatus and leave the store unchanged. -/
theorem C2_witness :
    confirmBooking completedStoreFixture "b1" 5 true =
      ⟨.error .invalidBookingStatus, completedStoreFixture, []⟩ ∧
    rejectBooking completedStoreFixture "b1" 5 true =
      ⟨.error .invalidBookingStatus, completedStoreFixture, []⟩ ∧
    suggestAlternativeTime completedStoreFixture "b1" "2025-04-16" "20:00" "m" "a1" 5 true =
      ⟨.error .invalidBookingStatus, completedStoreFixture, []⟩ ∧
    completeBooking completedStoreFixture "b1" 5 =
      ⟨.error .invalidBookingStatus, completedStoreFixture, []⟩ ∧
    cancelBooking completedStoreFixture "b1" 5 true =
      ⟨.error .invalidBookingStatus, completedStoreFixture, []⟩ := by
  have h := C2_amended_transitions completedStoreFixture "b1" 5 true
    completedBookingFixture (by decide)
  exact ⟨h.1 (by decide), h.2.1 (by decide),
    h.2.2.1 (by decide) "2025-04-16" "20:00" "m" "a1",
    h.2.2.2.1 (by decide), h.2.2.2.2 (by decide)⟩

/-- C4: when no slot of the restaurant and date has the requested time, or
the matching slot's free seats (capacity - reserved) are fewer than
guests_count, CreateBooking fails with NoAvailability and the store is
returned untouched — no booking row persisted, no reserved count changed. -/
theorem C4_createBooking_noAvailability (store : Store) (booking : Booking)
    (freshID : String) (now : Nat) (interf : Store → Store) (notifyOk : Bool)
    (h : (∀ a ∈ store.slots, ¬(a.restaurantID = booking.restaurantID ∧
            a.date = booking.date ∧ a.timeSlot = booking.time)) ∨
         (∃ a, (getByRestaurantAndDate store.slots booking.restaurantID booking.date).find?
             (fun x => x.timeSlot == booking.time) = some a ∧
           a.availableSeats < booking.guestsCount)) :
    createBooking store booking freshID now interf notifyOk =
      ⟨.error .noAvailability, store, []⟩ := by
  rcases h with hnone | ⟨a, hfind, hseats⟩
  · have hfound : (getByRestaurantAndDate store.slots booking.restaurantID
        booking.date).find? (fun x => x.timeSlot == booking.time) = none := by
      rw [List.find?_eq_none]
      intro x hx
      unfold getByRestaurantAndDate at hx
      have hx' := (mem_sortByTimeSlot x _).1 hx
      rcases List.mem_filter.1 hx' with ⟨hxs, hpred⟩
      simp only [Bool.and_eq_true, beq_iff_eq] at hpred
      intro hbeq
      exact hnone x hxs ⟨hpred.1, hpred.2, by simpa using hbeq⟩
    simp only [createBooking, hfound]
    simp only [true_or, if_true]
  · simp only [createBooking, hfind]
    rw [if_pos (Or.inr hseats)]

/-- Witness for C4: a slot with capacity 20 and reserved 18 cannot take a
booking for 4 guests; CreateBooking fails with NoAvailability and the store
is unchanged. -/
theorem C4_witness :
    createBooking ⟨["r1"], ["u1"], [⟨"s1", "r1", "2025-04-15", "19:00", 20, 18, 0⟩], [], []⟩
        ⟨"", "r1", "u1", "2025-04-15", "19:00", 120, 4, .pending, "", 0, 0, none, none, none⟩
        "f1" 7 id true =
      ⟨.error .noAvailability,
       ⟨["r1"], ["u1"], [⟨"s1", "r1", "2025-04-15", "19:00", 20, 18, 0⟩], [], []⟩, []⟩ :=
  C4_createBooking_noAvailability _ _ "f1" 7 id true
    (Or.inr ⟨⟨"s1", "r1", "2025-04-15", "19:00", 20, 18, 0⟩, by decide, by decide⟩)

/-- C5: when CreateBooking passes its fast-path check and persists the
booking row, but the subsequent UpdateReservedSeats (+guestsCount) against
the possibly concurrently modified store fails, the operation returns the
wrapped capacity error, and as a compensating action the just-created booking
is set to cancelled when that status update succeeds; the capacity error is
returned even when the compensating update itself fails (the store is then
left as the reservation step found it). -/
theorem C5_createBooking_compensation (store : Store) (booking : Booking)
    (freshID : String) (now : Nat) (interf : Store → Store) (notifyOk : Bool)
    (a : Availability) (e : Err)
    (hfound : (getByRestaurantAndDate store.slots booking.restaurantID
        booking.date).find? (fun x => x.timeSlot == booking.time) = some a)
    (hid : ¬ a.id = "")
    (hseats : ¬ a.availableSeats < booking.guestsCount)
    (hrest : store.restaurants.contains booking.restaurantID = true)
    (huser : store.users.contains booking.userID = true)
    (hfail : updateReservedSeats
        (interf (storeAfterInsert store
          (bookingWithID (preparedBooking booking now) freshID))).slots
        a.id booking.guestsCount now = .error e) :
    (createBooking store booking freshID now interf notifyOk).res =
      .error (.updateSeatsFailed e) ∧
    (∀ bs, updateStatus
        (interf (storeAfterInsert store
          (bookingWithID (preparedBooking booking now) freshID))).bookings
        (bookingWithID (preparedBooking booking now) freshID).id
        .cancelled now = .ok bs →
      (createBooking store booking freshID now interf notifyOk).store =
        { interf (storeAfterInsert store
            (bookingWithID (preparedBooking booking now) freshID)) with bookings := bs }) ∧
    (∀ e', updateStatus
        (interf (storeAfterInsert store
          (bookingWithID (preparedBooking booking now) freshID))).bookings
        (bookingWithID (preparedBooking booking now) freshID).id
        .cancelled now = .error e' →
      (createBooking store booking freshID now interf notifyOk).store =
        interf (storeAfterInsert store
          (bookingWithID (preparedBooking booking now) freshID))) := by
  have hred : createBooking store booking freshID now interf notifyOk =
      createBookingReserve
        (interf (storeAfterInsert store
          (bookingWithID (preparedBooking booking now) freshID)))
        (bookingWithID (preparedBooking booking now) freshID) a.id now notifyOk := by
    simp only [createBooking, hfound]
    rw [if_neg (fun hor => hor.elim hid hseats)]
    simp only [bookingCreate, bookingWithID_restaurantID, bookingWithID_userID,
      preparedBooking_restaurantID, preparedBooking_userID, hrest, huser, if_true]
  have hres : createBookingReserve
      (interf (storeAfterInsert store
        (bookingWithID (preparedBooking booking now) freshID)))
      (bookingWithID (preparedBooking booking now) freshID) a.id now notifyOk =
      ⟨.error (.updateSeatsFailed e),
       match updateStatus
          (interf (storeAfterInsert store
            (bookingWithID (preparedBooking booking now) freshID))).bookings
          (bookingWithID (preparedBooking booking now) freshID).id .cancelled now with
        | .ok bs => { interf (storeAfterInsert store
            (bookingWithID (preparedBooking booking now) freshID)) with bookings := bs }
        | .error _ => interf (storeAfterInsert store
            (bookingWithID (preparedBooking booking now) freshID)), []⟩ := by
    simp only [createBookingReserve, bookingWithID_guestsCount, preparedBooking_guestsCount,
      hfail]
  refine ⟨by rw [hred, hres], fun bs hbs => ?_, fun e' he' => ?_⟩
  · rw [hred, hres]
    simp only [hbs]
  · rw [hred, hres]
    simp only [he']

/-- Witness for C5: with the interference above, CreateBooking returns the
wrapped InsufficientCapacity error and the persisted booking ends up
cancelled. -/
theorem C5_witness :
    (createBooking c5StoreFixture c5BookingFixture "f2" 7 seatEaterInterference true).res =
      .error (.updateSeatsFailed .insufficientCapacity) ∧
    (createBooking c5StoreFixture c5BookingFixture "f2" 7 seatEaterInterference true).store =
      ⟨["r1"], ["u1"], [⟨"s1", "r1", "2025-04-15", "19:00", 10, 10, 6⟩],
       [⟨"f2", "r1", "u1", "2025-04-15", "19:00", 120, 4, .cancelled, "", 7, 7,
         none, none, none⟩], []⟩ := by
  have h := C5_createBooking_compensation c5StoreFixture c5BookingFixture "f2" 7
    seatEaterInterference true ⟨"s1", "r1", "2025-04-15", "19:00", 10, 5, 0⟩
    .insufficientCapacity (by decide) (by decide) (by decide) (by decide) (by decide)
    (by decide)
  refine ⟨h.1, ?_⟩
  have h2 := h.2.1 [⟨"f2", "r1", "u1", "2025-04-15", "19:00", 120, 4, .cancelled, "", 7, 7,
    none, none, none⟩] (by decide)
  exact h2.trans (by decide)

/-- C6: SetAvailability with an existing restaurant is an upsert.  When a row
for (restaurant_id, date, time_slot) exists, exactly that row's capacity and
updated_at are rewritten — its reserved count appears unchanged in the result
for any pair of capacities — and when no row matches, a new row is inserted
with reserved = 0. -/
theorem C6_setAvailability_upsert (restaurants : List String) (slots : List Availability)
    (avail : Availability) (freshID : String) (now : Nat)
    (hrest : restaurants.contains avail.restaurantID = true) :
    (∀ existing, slots.find? (fun s => s.restaurantID == avail.restaurantID &&
        s.date == avail.date && s.timeSlot == avail.timeSlot) = some existing →
      setAvailability restaurants slots avail freshID now =
        .ok (slots.map (fun s =>
            if s.id == existing.id then
              { s with capacity := avail.capacity, updatedAt := now }
            else s),
          { availWithID avail freshID with
              id := existing.id,
              reserved := existing.reserved,
              updatedAt := now })) ∧
    (slots.find? (fun s => s.restaurantID == avail.restaurantID &&
        s.date == avail.date && s.timeSlot == avail.timeSlot) = none →
      setAvailability restaurants slots avail freshID now =
        .ok (slots ++ [({ availWithID avail freshID with
              reserved := 0, updatedAt := now } : Availability)],
          { availWithID avail freshID with reserved := 0, updatedAt := now })) := by
  constructor
  · intro existing hfind
    unfold setAvailability
    simp only [availWithID_restaurantID, availWithID_date, availWithID_timeSlot,
      availWithID_capacity, hrest, if_true, hfind]
  · intro hfind
    unfold setAvailability
    simp only [availWithID_restaurantID, availWithID_date, availWithID_timeSlot,
      hrest, if_true, hfind]

/-- Witness for C6: re-publishing the slot with capacity 3 preserves
reserved = 5 while updating capacity and updated_at, and publishing an
unknown slot inserts it with reserved = 0. -/
theorem C6_witness :
    setAvailability ["r1"] [⟨"s1", "r1", "2025-04-15", "19:00", 10, 5, 0⟩]
        ⟨"", "r1", "2025-04-15", "19:00", 3, 0, 0⟩ "f1" 1 =
      .ok ([⟨"s1", "r1", "2025-04-15", "19:00", 3, 5, 1⟩],
           ⟨"s1", "r1", "2025-04-15", "19:00", 3, 5, 1⟩) ∧
    setAvailability ["r1"] []
        ⟨"", "r1", "2025-04-15", "20:00", 8, 7, 0⟩ "f1" 1 =
      .ok ([⟨"f1", "r1", "2025-04-15", "20:00", 8, 0, 1⟩],
           ⟨"f1", "r1", "2025-04-15", "20:00", 8, 0, 1⟩) := by
  constructor
  · have h := (C6_setAvailability_upsert ["r1"] [⟨"s1", "r1", "2025-04-15", "19:00", 10, 5, 0⟩]
      ⟨"", "r1", "2025-04-15", "19:00", 3, 0, 0⟩ "f1" 1 (by decide)).1
      ⟨"s1", "r1", "2025-04-15", "19:00", 10, 5, 0⟩ (by decide)
    exact h.trans (by decide)
  · have h := (C6_setAvailability_upsert ["r1"] []
      ⟨"", "r1", "2025-04-15", "20:00", 8, 7, 0⟩ "f1" 1 (by decide)).2 (by decide)
    exact h.trans (by decide)

theorem find?_undecided_of_find?_id (alts : List BookingAlternative) (altID : String)
    (alt : BookingAlternative) (hfind : alts.find? (fun a => a.id == altID) = some alt)
    (ha : alt.acceptedAt = none) (hr : alt.rejectedAt = none) :
    alts.find? (fun a => a.id == altID && a.acceptedAt == none && a.rejectedAt == none) =
      some alt := by
  induction alts with
  | nil => simp at hfind
  | cons x xs ih =>
    by_cases hx : (x.id == altID) = true
    · have hx1 : ((fun a => a.id == altID) x) = true := hx
      have hcons : (x :: xs).find? (fun a => a.id == altID) = some x :=
        List.find?_cons_of_pos xs hx1
      rw [hcons] at hfind
      injection hfind with hfind
      subst hfind
      have hx2 : ((fun a => a.id == altID && a.acceptedAt == none &&
          a.rejectedAt == none) x) = true := by
        simp [hx, ha, hr]
      exact List.find?_cons_of_pos xs hx2
    · have hx1 : ¬ ((fun a => a.id == altID) x) = true := hx
      have hcons : (x :: xs).find? (fun a => a.id == altID) =
          xs.find? (fun a => a.id == altID) :=
        List.find?_cons_of_neg xs hx1
      rw [hcons] at hfind
      have hx2 : ¬ ((fun a => a.id == altID && a.acceptedAt == none &&
          a.rejectedAt == none) x) = true := by
        simp [hx]
      have hcons2 : (x :: xs).find? (fun a => a.id == altID && a.acceptedAt == none &&
          a.rejectedAt == none) =
          xs.find? (fun a => a.id == altID && a.acceptedAt == none &&
            a.rejectedAt == none) :=
        List.find?_cons_of_neg xs hx2
      rw [hcons2]
      exact ih hfind

/-- C7: with unique alternative ids and every alternative's parent booking
present, AcceptAlternative fails with AlternativeNotFound and changes nothing
when the id is unknown or the alternative already carries a decision
timestamp; otherwise it succeeds, and in one atomic unit stamps the
alternative's accepted_at and rewrites the parent booking's date, time,
status = confirmed, confirmed_at and updated_at — while no availability
slot's reserved count changes. -/
theorem C7_acceptAlternative_spec (store : Store) (alternativeID : String) (now : Nat)
    (notifyOk : Bool)
    (huniq : store.alternatives.Pairwise (fun x y => x.id ≠ y.id))
    (hwf : ∀ alt ∈ store.alternatives, ∃ bk,
      store.bookings.find? (fun b => b.id == alt.bookingID) = some bk) :
    (store.alternatives.find? (fun a => a.id == alternativeID) = none →
      acceptAlternative store alternativeID now notifyOk =
        ⟨.error .alternativeNotFound, store, []⟩) ∧
    (∀ alt, store.alternatives.find? (fun a => a.id == alternativeID) = some alt →
      (alt.acceptedAt ≠ none ∨ alt.rejectedAt ≠ none) →
      acceptAlternative store alternativeID now notifyOk =
        ⟨.error .alternativeNotFound, store, []⟩) ∧
    (∀ alt, store.alternatives.find? (fun a => a.id == alternativeID) = some alt →
      alt.acceptedAt = none → alt.rejectedAt = none →
      (acceptAlternative store alternativeID now notifyOk).res = .ok () ∧
      (acceptAlternative store alternativeID now notifyOk).store = { store with
        alternatives := store.alternatives.map (fun a =>
          if a.id == alternativeID then { a with acceptedAt := some now } else a),
        bookings := store.bookings.map (fun b =>
          if b.id == alt.bookingID then
            { b with date := alt.date, time := alt.time, updatedAt := now,
                     status := .confirmed, confirmedAt := some now }
          else b) } ∧
      (acceptAlternative store alternativeID now notifyOk).store.slots = store.slots) := by
  refine ⟨fun hnone => ?_, fun alt hfind hdec => ?_, fun alt hfind ha hr => ?_⟩
  · simp only [acceptAlternative, getAlternativeByID, hnone]
  · rcases hwf alt (List.mem_of_find?_eq_some hfind) with ⟨bk, hbk⟩
    have halt_id := List.find?_some hfind
    simp only [beq_iff_eq] at halt_id
    have hstrongnone : store.alternatives.find? (fun a => a.id == alternativeID &&
        a.acceptedAt == none && a.rejectedAt == none) = none := by
      rw [List.find?_eq_none]
      intro x hx hpx
      simp only [Bool.and_eq_true, beq_iff_eq] at hpx
      obtain ⟨⟨hid, hacc⟩, hrej⟩ := hpx
      have hxalt : x = alt := eq_of_pairwise_key BookingAlternative.id huniq hx
        (List.mem_of_find?_eq_some hfind) (hid.trans halt_id.symm)
      subst hxalt
      rcases hdec with h | h
      · exact h hacc
      · exact h hrej
    simp only [acceptAlternative, getAlternativeByID, hfind, bookingGetByID, hbk,
      repoAcceptAlternative, hstrongnone]
  · rcases hwf alt (List.mem_of_find?_eq_some hfind) with ⟨bk, hbk⟩
    have hstrong := find?_undecided_of_find?_id store.alternatives alternativeID alt
      hfind ha hr
    refine ⟨?_, ?_, ?_⟩ <;>
      simp only [acceptAlternative, getAlternativeByID, hfind, bookingGetByID, hbk,
        repoAcceptAlternative, hstrong]

/-- Witness for C7: accepting the sole undecided alternative of a pending
booking stamps it accepted and confirms the booking at the alternative's
date and time; the slot table is untouched. -/
theorem C7_witness :
    (acceptAlternative
      ⟨["r1"], ["u1"], [⟨"s1", "r1", "2025-04-15", "19:00", 10, 4, 0⟩],
       [⟨"b1", "r1", "u1", "2025-04-15", "19:00", 120, 4, .pending, "", 0, 0,
         none, none, none⟩],
       [⟨"a1", "b1", "2025-04-16", "20:00", "m", 0, none, none⟩]⟩ "a1" 9 true).res =
      .ok () ∧
    (acceptAlternative
      ⟨["r1"], ["u1"], [⟨"s1", "r1", "2025-04-15", "19:00", 10, 4, 0⟩],
       [⟨"b1", "r1", "u1", "2025-04-15", "19:00", 120, 4, .pending, "", 0, 0,
         none, none, none⟩],
       [⟨"a1", "b1", "2025-04-16", "20:00", "m", 0, none, none⟩]⟩ "a1" 9 true).store =
      ⟨["r1"], ["u1"], [⟨"s1", "r1", "2025-04-15", "19:00", 10, 4, 0⟩],
       [⟨"b1", "r1", "u1", "2025-04-16", "20:00", 120, 4, .confirmed, "", 0, 9,
         some 9, none, none⟩],
       [⟨"a1", "b1", "2025-04-16", "20:00", "m", 0, some 9, none⟩]⟩ := by
  have h := (C7_acceptAlternative_spec
    ⟨["r1"], ["u1"], [⟨"s1", "r1", "2025-04-15", "19:00", 10, 4, 0⟩],
     [⟨"b1", "r1", "u1", "2025-04-15", "19:00", 120, 4, .pending, "", 0, 0,
       none, none, none⟩],
     [⟨"a1", "b1", "2025-04-16", "20:00", "m", 0, none, none⟩]⟩ "a1" 9 true
    (by decide)
    (fun alt halt => ⟨⟨"b1", "r1", "u1", "2025-04-15", "19:00", 120, 4, .pending, "",
      0, 0, none, none, none⟩, by
        simp only [List.mem_singleton] at halt
        subst halt
        decide⟩)).2.2
    ⟨"a1", "b1", "2025-04-16", "20:00", "m", 0, none, none⟩ (by decide) rfl rfl
  exact ⟨h.1, h.2.1.trans (by decide)⟩

/-- C8: AcceptAlternative checks no precondition on the parent booking's
status.  For any alternative carrying neither decision timestamp whose parent
booking exists, the call succeeds and the parent booking — whatever its
current status, including the terminal ones — ends up confirmed at the
alternative's date and time. -/
theorem C8_acceptAlternative_ignores_status (store : Store) (alternativeID : String)
    (now : Nat) (notifyOk : Bool) (alt : BookingAlternative) (bk : Booking)
    (hfind : store.alternatives.find? (fun a => a.id == alternativeID) = some alt)
    (ha : alt.acceptedAt = none) (hr : alt.rejectedAt = none)
    (hbk : store.bookings.find? (fun b => b.id == alt.bookingID) = some bk) :
    (acceptAlternative store alternativeID now notifyOk).res = .ok () ∧
    (acceptAlternative store alternativeID now notifyOk).store.bookings.find?
        (fun b => b.id == alt.bookingID) =
      some { bk with date := alt.date, time := alt.time, updatedAt := now,
                     status := .confirmed, confirmedAt := some now } := by
  have hstrong := find?_undecided_of_find?_id store.alternatives alternativeID alt
    hfind ha hr
  have hbkid := List.find?_some hbk
  constructor
  · simp only [acceptAlternative, getAlternativeByID, hfind, bookingGetByID, hbk,
      repoAcceptAlternative, hstrong]
  · simp only [acceptAlternative, getAlternativeByID, hfind, bookingGetByID, hbk,
      repoAcceptAlternative, hstrong]
    rw [List.find?_map]
    have hcomp : ((fun b => b.id == alt.bookingID) ∘ (fun (b : Booking) =>
        if (b.id == alt.bookingID) = true then
          { b with date := alt.date, time := alt.time, updatedAt := now,
                   status := BookingStatus.confirmed, confirmedAt := some now }
        else b)) = (fun (b : Booking) => b.id == alt.bookingID) := by
      funext b
      by_cases hb : (b.id == alt.bookingID) = true
      · have hb' : b.id = alt.bookingID := eq_of_beq hb
        simp [hb']
      · have hb' : ¬ b.id = alt.bookingID := fun h => hb (by simp [h])
        simp [hb']
    rw [hcomp, hbk]
    have hbkid' : bk.id = alt.bookingID := eq_of_beq hbkid
    simp [hbkid']

/-- Witness for C8: the parent booking is in the terminal status cancelled,
yet accepting the alternative succeeds and re-confirms it at the
alternative's date and time. -/
theorem C8_witness :
    (acceptAlternative
      ⟨["r1"], ["u1"], [],
       [⟨"b1", "r1", "u1", "2025-04-15", "19:00", 120, 4, .cancelled, "", 0, 0,
         none, none, none⟩],
       [⟨"a1", "b1", "2025-04-16", "20:00", "m", 0, none, none⟩]⟩ "a1" 9 true).res =
      .ok () ∧
    (acceptAlternative
      ⟨["r1"], ["u1"], [],
       [⟨"b1", "r1", "u1", "2025-04-15", "19:00", 120, 4, .cancelled, "", 0, 0,
         none, none, none⟩],
       [⟨"a1", "b1", "2025-04-16", "20:00", "m", 0, none, none⟩]⟩ "a1" 9 true
      ).store.bookings.find? (fun b => b.id == "b1") =
      some ⟨"b1", "r1", "u1", "2025-04-16", "20:00", 120, 4, .confirmed, "", 0, 9,
        some 9, none, none⟩ := by
  have h := C8_acceptAlternative_ignores_status
    ⟨["r1"], ["u1"], [],
     [⟨"b1", "r1", "u1", "2025-04-15", "19:00", 120, 4, .cancelled, "", 0, 0,
       none, none, none⟩],
     [⟨"a1", "b1", "2025-04-16", "20:00", "m", 0, none, none⟩]⟩ "a1" 9 true
    ⟨"a1", "b1", "2025-04-16", "20:00", "m", 0, none, none⟩
    ⟨"b1", "r1", "u1", "2025-04-15", "19:00", 120, 4, .cancelled, "", 0, 0,
      none, none, none⟩ (by decide) rfl rfl (by decide)
  exact ⟨h.1, h.2.trans (by decide)⟩

/-- C9: a successful CancelBooking rewrites only the booking's status (to
cancelled) and updated_at; the slot table — and with it every reserved
count — as well as the restaurant, user and alternative tables are returned
unchanged.  No seat-release path exists. -/
theorem C9_cancelBooking_frame (store : Store) (id : String) (now : Nat) (notifyOk : Bool)
    (hok : (cancelBooking store id now notifyOk).res = .ok ()) :
    (cancelBooking store id now notifyOk).store.slots = store.slots ∧
    (cancelBooking store id now notifyOk).store.restaurants = store.restaurants ∧
    (cancelBooking store id now notifyOk).store.users = store.users ∧
    (cancelBooking store id now notifyOk).store.alternatives = store.alternatives ∧
    (cancelBooking store id now notifyOk).store.bookings = store.bookings.map (fun b =>
      if b.id == id then { b with status := .cancelled, updatedAt := now } else b) := by
  cases hfind : store.bookings.find? (fun b => b.id == id) with
  | none =>
    exfalso
    simp [cancelBooking, bookingGetByID, hfind] at hok
  | some booking =>
    by_cases hst : booking.status = BookingStatus.completed ∨
        booking.status = BookingStatus.rejected
    · exfalso
      simp [cancelBooking, bookingGetByID, hfind, hst] at hok
    · have hupd : updateStatus store.bookings id .cancelled now =
          .ok (store.bookings.map (fun b =>
            if b.id == id then { b with status := .cancelled, updatedAt := now } else b)) := by
        simp only [updateStatus, hfind]
      simp only [cancelBooking, bookingGetByID, hfind, hupd]
      rw [if_neg hst]
      exact ⟨rfl, rfl, rfl, rfl, rfl⟩

/-- Witness for C9: cancelling a pending booking leaves the slot's reserved
count at 4 and only flips the booking to cancelled. -/
theorem C9_witness :
    (cancelBooking
      ⟨["r1"], ["u1"], [⟨"s1", "r1", "2025-04-15", "19:00", 10, 4, 0⟩],
       [⟨"b1", "r1", "u1", "2025-04-15", "19:00", 120, 4, .pending, "", 0, 0,
         none, none, none⟩], []⟩ "b1" 5 true).store.slots =
      [⟨"s1", "r1", "2025-04-15", "19:00", 10, 4, 0⟩] ∧
    (cancelBooking
      ⟨["r1"], ["u1"], [⟨"s1", "r1", "2025-04-15", "19:00", 10, 4, 0⟩],
       [⟨"b1", "r1", "u1", "2025-04-15", "19:00", 120, 4, .pending, "", 0, 0,
         none, none, none⟩], []⟩ "b1" 5 true).store.bookings =
      [⟨"b1", "r1", "u1", "2025-04-15", "19:00", 120, 4, .cancelled, "", 0, 5,
        none, none, none⟩] := by
  have h := C9_cancelBooking_frame
    ⟨["r1"], ["u1"], [⟨"s1", "r1", "2025-04-15", "19:00", 10, 4, 0⟩],
     [⟨"b1", "r1", "u1", "2025-04-15", "19:00", 120, 4, .pending, "", 0, 0,
       none, none, none⟩], []⟩ "b1" 5 true (by decide)
  exact ⟨h.1.trans (by decide), h.2.2.2.2.trans (by decide)⟩

theorem confirm_notify_aux (store : Store) (id : String) (now : Nat) (n₁ n₂ : Bool) :
    ((confirmBooking store id now n₁).res = (confirmBooking store id now n₂).res ∧
     (confirmBooking store id now n₁).store = (confirmBooking store id now n₂).store) ∧
    (∀ e, (confirmBooking store id now n₁).res = .error e →
      (confirmBooking store id now n₁).store = store) := by
  unfold confirmBooking
  cases hfind : bookingGetByID store.bookings id with
  | error e => exact ⟨⟨rfl, rfl⟩, fun e' he' => rfl⟩
  | ok booking =>
    dsimp only
    by_cases hst : booking.status ≠ BookingStatus.pending
    · rw [if_pos hst, if_pos hst]
      exact ⟨⟨rfl, rfl⟩, fun e' he' => rfl⟩
    · rw [if_neg hst, if_neg hst]
      cases hupd : updateStatus store.bookings id .confirmed now with
      | error e => exact ⟨⟨rfl, rfl⟩, fun e' he' => rfl⟩
      | ok bs => exact ⟨⟨rfl, rfl⟩, fun e' he' => by simp at he'⟩

theorem reject_notify_aux (store : Store) (id : String) (now : Nat) (n₁ n₂ : Bool) :
    ((rejectBooking store id now n₁).res = (rejectBooking store id now n₂).res ∧
     (rejectBooking store id now n₁).store = (rejectBooking store id now n₂).store) ∧
    (∀ e, (rejectBooking store id now n₁).res = .error e →
      (rejectBooking store id now n₁).store = store) := by
  unfold rejectBooking
  cases hfind : bookingGetByID store.bookings id with
  | error e => exact ⟨⟨rfl, rfl⟩, fun e' he' => rfl⟩
  | ok booking =>
    dsimp only
    by_cases hst : booking.status ≠ BookingStatus.pending
    · rw [if_pos hst, if_pos hst]
      exact ⟨⟨rfl, rfl⟩, fun e' he' => rfl⟩
    · rw [if_neg hst, if_neg hst]
      cases hupd : updateStatus store.bookings id .rejected now with
      | error e => exact ⟨⟨rfl, rfl⟩, fun e' he' => rfl⟩
      | ok bs => exact ⟨⟨rfl, rfl⟩, fun e' he' => by simp at he'⟩

theorem cancel_notify_aux (store : Store) (id : String) (now : Nat) (n₁ n₂ : Bool) :
    ((cancelBooking store id now n₁).res = (cancelBooking store id now n₂).res ∧
     (cancelBooking store id now n₁).store = (cancelBooking store id now n₂).store) ∧
    (∀ e, (cancelBooking store id now n₁).res = .error e →
      (cancelBooking store id now n₁).store = store) := by
  unfold cancelBooking
  cases hfind : bookingGetByID store.bookings id with
  | error e => exact ⟨⟨rfl, rfl⟩, fun e' he' => rfl⟩
  | ok booking =>
    dsimp only
    by_cases hst : booking.status = BookingStatus.completed ∨
        booking.status = BookingStatus.rejected
    · rw [if_pos hst, if_pos hst]
      exact ⟨⟨rfl, rfl⟩, fun e' he' => rfl⟩
    · rw [if_neg hst, if_neg hst]
      cases hupd : updateStatus store.bookings id .cancelled now with
      | error e => exact ⟨⟨rfl, rfl⟩, fun e' he' => rfl⟩
      | ok bs => exact ⟨⟨rfl, rfl⟩, fun e' he' => by simp at he'⟩

theorem suggest_notify_aux (store : Store) (bookingID date timeSlot message freshID : String)
    (now : Nat) (n₁ n₂ : Bool) :
    ((suggestAlternativeTime store bookingID date timeSlot message freshID now n₁).res =
       (suggestAlternativeTime store bookingID date timeSlot message freshID now n₂).res ∧
     (suggestAlternativeTime store bookingID date timeSlot message freshID now n₁).store =
       (suggestAlternativeTime store bookingID date timeSlot message freshID now n₂).store) ∧
    (∀ e, (suggestAlternativeTime store bookingID date timeSlot message freshID now n₁).res =
        .error e →
      (suggestAlternativeTime store bookingID date timeSlot message freshID now n₁).store =
        store) := by
  unfold suggestAlternativeTime
  cases hfind : bookingGetByID store.bookings bookingID with
  | error e => exact ⟨⟨rfl, rfl⟩, fun e' he' => rfl⟩
  | ok booking =>
    dsimp only
    by_cases hst : booking.status ≠ BookingStatus.pending
    · rw [if_pos hst, if_pos hst]
      exact ⟨⟨rfl, rfl⟩, fun e' he' => rfl⟩
    · rw [if_neg hst, if_neg hst]
      cases hadd : addAlternative store
          ⟨"", bookingID, date, timeSlot, message, now, none, none⟩ freshID with
      | error e => exact ⟨⟨rfl, rfl⟩, fun e' he' => rfl⟩
      | ok p =>
        obtain ⟨store', alt⟩ := p
        exact ⟨⟨rfl, rfl⟩, fun e' he' => by simp at he'⟩

theorem acceptAlt_notify_aux (store : Store) (alternativeID : String) (now : Nat)
    (n₁ n₂ : Bool) :
    ((acceptAlternative store alternativeID now n₁).res =
       (acceptAlternative store alternativeID now n₂).res ∧
     (acceptAlternative store alternativeID now n₁).store =
       (acceptAlternative store alternativeID now n₂).store) ∧
    (∀ e, (acceptAlternative store alternativeID now n₁).res = .error e →
      (acceptAlternative store alternativeID now n₁).store = store) := by
  unfold acceptAlternative
  cases hfind : getAlternativeByID store.alternatives alternativeID with
  | error e => exact ⟨⟨rfl, rfl⟩, fun e' he' => rfl⟩
  | ok alternative =>
    dsimp only
    cases hbk : bookingGetByID store.bookings alternative.bookingID with
    | error e => exact ⟨⟨rfl, rfl⟩, fun e' he' => rfl⟩
    | ok booking =>
      dsimp only
      cases hacc : repoAcceptAlternative store alternativeID now with
      | error e => exact ⟨⟨rfl, rfl⟩, fun e' he' => rfl⟩
      | ok store' => exact ⟨⟨rfl, rfl⟩, fun e' he' => by simp at he'⟩

theorem rejectAlt_notify_aux (store : Store) (alternativeID : String) (now : Nat)
    (n₁ n₂ : Bool) :
    ((rejectAlternative store alternativeID now n₁).res =
       (rejectAlternative store alternativeID now n₂).res ∧
     (rejectAlternative store alternativeID now n₁).store =
       (rejectAlternative store alternativeID now n₂).store) ∧
    (∀ e, (rejectAlternative store alternativeID now n₁).res = .error e →
      (rejectAlternative store alternativeID now n₁).store = store) := by
  unfold rejectAlternative
  cases hfind : getAlternativeByID store.alternatives alternativeID with
  | error e => exact ⟨⟨rfl, rfl⟩, fun e' he' => rfl⟩
  | ok alternative =>
    dsimp only
    cases hbk : bookingGetByID store.bookings alternative.bookingID with
    | error e => exact ⟨⟨rfl, rfl⟩, fun e' he' => rfl⟩
    | ok booking =>
      dsimp only
      cases hrej : repoRejectAlternative store alternativeID now with
      | error e => exact ⟨⟨rfl, rfl⟩, fun e' he' => rfl⟩
      | ok store' => exact ⟨⟨rfl, rfl⟩, fun e' he' => by simp at he'⟩

theorem create_notify_aux (store : Store) (booking : Booking) (freshID : String)
    (now : Nat) (interf : Store → Store) (n₁ n₂ : Bool) :
    (createBooking store booking freshID now interf n₁).res =
      (createBooking store booking freshID now interf n₂).res ∧
    (createBooking store booking freshID now interf n₁).store =
      (createBooking store booking freshID now interf n₂).store := by
  unfold createBooking
  dsimp only
  cases hf : (getByRestaurantAndDate store.slots booking.restaurantID booking.date).find?
      (fun a => a.timeSlot == booking.time) with
  | none => exact ⟨rfl, rfl⟩
  | some a =>
    dsimp only
    by_cases hcond : a.id = "" ∨ a.availableSeats < booking.guestsCount
    · rw [if_pos hcond, if_pos hcond]
      exact ⟨rfl, rfl⟩
    · rw [if_neg hcond, if_neg hcond]
      cases hbc : bookingCreate store (preparedBooking booking now) freshID with
      | error e => exact ⟨rfl, rfl⟩
      | ok p =>
        obtain ⟨store₁, inserted⟩ := p
        dsimp only
        unfold createBookingReserve
        cases hur : updateReservedSeats (interf store₁).slots a.id inserted.guestsCount now with
        | error e =>
          cases hus : updateStatus (interf store₁).bookings inserted.id .cancelled now with
          | error e' => exact ⟨rfl, rfl⟩
          | ok bs => exact ⟨rfl, rfl⟩
        | ok slots' => exact ⟨rfl, rfl⟩

/-- C10: for every operation that dispatches a notification (CreateBooking,
ConfirmBooking, RejectBooking, CancelBooking, SuggestAlternativeTime,
AcceptAlternative, RejectAlternative), the outcome of the NotifyUser /
NotifyRestaurant call influences neither the operation's result nor the
resulting store — a notification failure is never propagated and never rolls
back the committed write — and for each of the six fetch-validate-write
operations an error result implies the store was not modified, so a
successful state write is always reported as success. -/
theorem C10_notifications_nonfatal (store : Store) (booking : Booking)
    (freshID id bookingID alternativeID date timeSlot message : String)
    (now : Nat) (interf : Store → Store) (n₁ n₂ : Bool) :
    ((createBooking store booking freshID now interf n₁).res =
       (createBooking store booking freshID now interf n₂).res ∧
     (createBooking store booking freshID now interf n₁).store =
       (createBooking store booking freshID now interf n₂).store) ∧
    (((confirmBooking store id now n₁).res = (confirmBooking store id now n₂).res ∧
      (confirmBooking store id now n₁).store = (confirmBooking store id now n₂).store) ∧
     (∀ e, (confirmBooking store id now n₁).res = .error e →
       (confirmBooking store id now n₁).store = store)) ∧
    (((rejectBooking store id now n₁).res = (rejectBooking store id now n₂).res ∧
      (rejectBooking store id now n₁).store = (rejectBooking store id now n₂).store) ∧
     (∀ e, (rejectBooking store id now n₁).res = .error e →
       (rejectBooking store id now n₁).store = store)) ∧
    (((cancelBooking store id now n₁).res = (cancelBooking store id now n₂).res ∧
      (cancelBooking store id now n₁).store = (cancelBooking store id now n₂).store) ∧
     (∀ e, (cancelBooking store id now n₁).res = .error e →
       (cancelBooking store id now n₁).store = store)) ∧
    (((suggestAlternativeTime store bookingID date timeSlot message freshID now n₁).res =
        (suggestAlternativeTime store bookingID date timeSlot message freshID now n₂).res ∧
      (suggestAlternativeTime store bookingID date timeSlot message freshID now n₁).store =
        (suggestAlternativeTime store bookingID date timeSlot message freshID now n₂).store) ∧
     (∀ e, (suggestAlternativeTime store bookingID date timeSlot message freshID now n₁).res =
         .error e →
       (suggestAlternativeTime store bookingID date timeSlot message freshID now n₁).store =
         store)) ∧
    (((acceptAlternative store alternativeID now n₁).res =
        (acceptAlternative store alternativeID now n₂).res ∧
      (acceptAlternative store alternativeID now n₁).store =
        (acceptAlternative store alternativeID now n₂).store) ∧
     (∀ e, (acceptAlternative store alternativeID now n₁).res = .error e →
       (acceptAlternative store alternativeID now n₁).store = store)) ∧
    (((rejectAlternative store alternativeID now n₁).res =
        (rejectAlternative store alternativeID now n₂).res ∧
      (rejectAlternative store alternativeID now n₁).store =
        (rejectAlternative store alternativeID now n₂).store) ∧
     (∀ e, (rejectAlternative store alternativeID now n₁).res = .error e →
       (rejectAlternative store alternativeID now n₁).store = store)) :=
  ⟨create_notify_aux store booking freshID now interf n₁ n₂,
   confirm_notify_aux store id now n₁ n₂,
   reject_notify_aux store id now n₁ n₂,
   cancel_notify_aux store id now n₁ n₂,
   suggest_notify_aux store bookingID date timeSlot message freshID now n₁ n₂,
   acceptAlt_notify_aux store alternativeID now n₁ n₂,
   rejectAlt_notify_aux store alternativeID now n₁ n₂⟩

/-- Witness for C10: on an empty store every operation errors and leaves the
store untouched, and CreateBooking's result is the same whether the
notification delivery succeeds or fails. -/
theorem C10_witness :
    (createBooking ⟨[], [], [], [], []⟩
        ⟨"", "r1", "u1", "2025-04-15", "19:00", 120, 4, .pending, "", 0, 0,
          none, none, none⟩ "f" 0 id true).res =
      (createBooking ⟨[], [], [], [], []⟩
        ⟨"", "r1", "u1", "2025-04-15", "19:00", 120, 4, .pending, "", 0, 0,
          none, none, none⟩ "f" 0 id false).res ∧
    (confirmBooking ⟨[], [], [], [], []⟩ "b1" 0 true).store = ⟨[], [], [], [], []⟩ ∧
    (rejectBooking ⟨[], [], [], [], []⟩ "b1" 0 true).store = ⟨[], [], [], [], []⟩ ∧
    (cancelBooking ⟨[], [], [], [], []⟩ "b1" 0 true).store = ⟨[], [], [], [], []⟩ ∧
    (suggestAlternativeTime ⟨[], [], [], [], []⟩ "b1" "2025-04-16" "20:00" "m" "f" 0
      true).store = ⟨[], [], [], [], []⟩ ∧
    (acceptAlternative ⟨[], [], [], [], []⟩ "a1" 0 true).store = ⟨[], [], [], [], []⟩ ∧
    (rejectAlternative ⟨[], [], [], [], []⟩ "a1" 0 true).store = ⟨[], [], [], [], []⟩ := by
  have h := C10_notifications_nonfatal ⟨[], [], [], [], []⟩
    ⟨"", "r1", "u1", "2025-04-15", "19:00", 120, 4, .pending, "", 0, 0, none, none, none⟩
    "f" "b1" "b1" "a1" "2025-04-16" "20:00" "m" 0 id true false
  exact ⟨h.1.1,
    h.2.1.2 .bookingNotFound (by decide),
    h.2.2.1.2 .bookingNotFound (by decide),
    h.2.2.2.1.2 .bookingNotFound (by decide),
    h.2.2.2.2.1.2 .bookingNotFound (by decide),
    h.2.2.2.2.2.1.2 .alternativeNotFound (by decide),
    h.2.2.2.2.2.2.2 .alternativeNotFound (by decide)⟩

end Restaurant
